import Mathlib

/-!
Verification development for the scraping_ecuador repository.

Shallow embedding of the pagination controller, row deduplication,
PDF-link discovery and the PDF acquisition engine, translated from
src/improved_pagination_scraper.py, src/comprehensive_pdf_scraper.py and
src/improved_pdf_downloader.py.  External libraries (selenium, requests,
re, the filesystem) are modelled as explicit oracles / state that the
embedded functions consume; the control flow of the Python functions is
translated literally.
-/

/-- Boolean substring test, modelling the Python operator `sub in s`
(used throughout the source for content-type / keyword / href checks). -/
def strContains (s pat : String) : Bool :=
  (List.range (s.toList.length + 1)).any (fun i => pat.toList.isPrefixOf (s.toList.drop i))

/-- Python str.lower (ASCII view), modelling the .lower() calls of the
source. -/
def strToLower (s : String) : String :=
  String.mk (s.toList.map Char.toLower)

/-- Python str.endswith. -/
def strEndsWith (s suffix : String) : Bool :=
  suffix.toList.isSuffixOf s.toList

/-- Python str.strip: remove leading and trailing whitespace. -/
def strTrim (s : String) : String :=
  String.mk (((s.toList.dropWhile Char.isWhitespace).reverse.dropWhile Char.isWhitespace).reverse)

/- ------------------------------------------------------------------ -/
/- Pagination info discovery                                           -/
/- (ImprovedPaginationEcuadorScraper.get_total_records_and_pages)      -/
/- ------------------------------------------------------------------ -/

/-- Result record of get_total_records_and_pages. -/
structure PaginationInfo where
  total_records : Nat
  total_pages : Nat
  items_per_page : Nat
  current_page : Nat
deriving DecidableEq

/-- The page-count regex patterns tried in order by
get_total_records_and_pages (source lines 112-117). -/
def page_patterns : List String :=
  ["(\\d+)\\s*of\\s*(\\d+)",
   "Página\\s*(\\d+)\\s*de\\s*(\\d+)",
   "(\\d+)\\s*/\\s*(\\d+)",
   "(\\d+)\\s*de\\s*(\\d+)"]

/-- The total-records regex patterns tried in order by
get_total_records_and_pages (source lines 135-140). -/
def total_patterns : List String :=
  ["total de registros:\\s*(\\d+)",
   "total records:\\s*(\\d+)",
   "registros:\\s*(\\d+)",
   "records:\\s*(\\d+)"]

/-- Oracle view of the rendered page text (driver.page_source) under the
external regex engine: for each two-group pattern, the list of
(current, total) pairs that re.findall would return, and for each
one-group pattern the list of captured numbers. -/
structure PageText where
  findPairs : String → List (Nat × Nat)
  findSingles : String → List Nat

/-- ImprovedPaginationEcuadorScraper.get_total_records_and_pages
(source lines 102-166): try the page-count patterns in order, first
pattern with a match wins and total_records is total * 10; otherwise try
the total-records patterns, deriving the page count by ceiling division
by 10; otherwise return the hard-coded default of 2742 records and 275
pages. -/
def get_total_records_and_pages (page : PageText) : PaginationInfo :=
  match page_patterns.findSome? (fun pat => (page.findPairs pat).head?) with
  | some (current, total) =>
    ⟨total * 10, total, 10, current⟩
  | none =>
    match total_patterns.findSome? (fun pat => (page.findSingles pat).head?) with
    | some total_records =>
      ⟨total_records, (total_records + 9) / 10, 10, 1⟩
    | none =>
      ⟨2742, 275, 10, 1⟩

/- ------------------------------------------------------------------ -/
/- Row deduplication                                                   -/
/- (ImprovedPaginationEcuadorScraper.extract_current_page_data)        -/
/- ------------------------------------------------------------------ -/

/-- A raw extracted table row as far as deduplication is concerned. -/
structure RawProject where
  id : String
  title : String
  description : String
deriving DecidableEq

/-- The run-wide duplicate-detection key (source line 415): the string
concatenation title + underscore + description. -/
def projectKey (p : RawProject) : String :=
  p.title ++ "_" ++ p.description

/-- The deduplication loop of extract_current_page_data (source lines
411-423): walk the extracted projects in order; a project whose key is
already in the seen set is dropped, otherwise its key is added and the
project is kept.  The Python set is modelled as a duplicate-free list
(keys are only inserted when absent). -/
def removeDuplicateProjects : List RawProject → List String → List RawProject × List String
  | [], seen => ([], seen)
  | p :: ps, seen =>
    if seen.contains (projectKey p) then
      removeDuplicateProjects ps seen
    else
      let r := removeDuplicateProjects ps (projectKey p :: seen)
      (p :: r.1, r.2)

/- ------------------------------------------------------------------ -/
/- Page navigation                                                     -/
/- (ImprovedPaginationEcuadorScraper.navigate_to_next_page and         -/
/-  ComprehensivePDFScraper.navigate_to_next_page)                     -/
/- ------------------------------------------------------------------ -/

/-- The rendered page as the current-page indicator sees it:
get_current_page_number scans driver.page_source with the page-count
patterns; indicator is the first captured current-page number, or none
when no pattern matches. -/
structure PageState where
  indicator : Option Nat
deriving DecidableEq

/-- get_current_page_number (source lines 363-390): the first pattern
match wins; when no pattern matches, the stored self.current_page is
returned. -/
def readPageNumber (p : PageState) (stored : Nat) : Nat :=
  p.indicator.getD stored

/-- One navigation strategy of navigate_to_next_page, in source order:
clicking the detected next button, typing the target page into the page
input, clicking the page link whose text is the target page, and
navigating to the URL with an added page parameter. -/
inductive NavAction where
  | clickNext : NavAction
  | pageInput : Nat → NavAction
  | pageLink : Nat → NavAction
  | urlNav : String → NavAction
deriving DecidableEq

/-- The URL rewrite of navigation method 4 (source lines 334-340). -/
def buildPageUrl (url : String) (n : Nat) : String :=
  if strContains url "?" then url ++ "&page=" ++ toString n
  else url ++ "?page=" ++ toString n

/-- Environment of one navigate_to_next_page call: which pagination
controls find_pagination_controls discovered, the second is_enabled
check on the next button, the visible texts of the discovered page
links, the current URL, and the effect each attempted action has on the
rendered page (the browser). -/
structure NavEnv where
  hasNextButton : Bool
  nextButtonEnabled : Bool
  hasPageInput : Bool
  pageLinkTexts : Option (List String)
  currentUrl : String
  step : NavAction → PageState → PageState

/-- The strategies navigate_to_next_page actually attempts, in source
order (methods 1-4, source lines 271-354): the next-button click when a
button was found and is still enabled, the page input when found, the
first page link whose stripped text equals the target page number, and
always the URL rewrite. -/
def availableStrategies (env : NavEnv) (stored : Nat) : List NavAction :=
  (if env.hasNextButton && env.nextButtonEnabled then [NavAction.clickNext] else []) ++
  (if env.hasPageInput then [NavAction.pageInput (stored + 1)] else []) ++
  (match env.pageLinkTexts with
   | some ts =>
     if ts.any (fun t => strTrim t == toString (stored + 1)) then
       [NavAction.pageLink (stored + 1)]
     else []
   | none => []) ++
  [NavAction.urlNav (buildPageUrl env.currentUrl (stored + 1))]

/-- Result of navigate_to_next_page: the returned Bool, the updated
self.current_page, the final state of the rendered page, and the
strategies that were attempted. -/
structure NavResult where
  success : Bool
  newCurrentPage : Nat
  pageState : PageState
  attempts : List NavAction
deriving DecidableEq

/-- The attempt-and-verify loop of navigate_to_next_page: perform each
strategy in order; after each one re-read the current-page indicator and
return success (updating self.current_page to the new reading) exactly
when it differs from the pre-navigation reading, otherwise fall through
to the next strategy; when all strategies are exhausted return failure.
Failed attempts keep their side effect on the page state. -/
def tryStrategies (env : NavEnv) (stored preInfo : Nat) :
    List NavAction → PageState → List NavAction → NavResult
  | [], p, tried => ⟨false, stored, p, tried⟩
  | a :: rest, p, tried =>
    let p' := env.step a p
    let info := readPageNumber p' stored
    if info ≠ preInfo then ⟨true, info, p', tried ++ [a]⟩
    else tryStrategies env stored preInfo rest p' (tried ++ [a])

/-- ImprovedPaginationEcuadorScraper.navigate_to_next_page (source
lines 256-361): read the pre-navigation page indicator, discover the
pagination controls, then attempt the available strategies in order,
verifying each attempt by re-reading the indicator. -/
def navigate_to_next_page (env : NavEnv) (stored : Nat) (p0 : PageState) : NavResult :=
  tryStrategies env stored (readPageNumber p0 stored) (availableStrategies env stored) p0 []

/-- One candidate next-page element of the comprehensive scraper, with
the attributes its loop inspects. -/
structure CompNextCandidate where
  displayed : Bool
  enabled : Bool
  classAttr : String
deriving DecidableEq

/-- ComprehensivePDFScraper.navigate_to_next_page (source lines
633-673): click the first displayed, enabled candidate whose class
attribute does not contain the substring disabled, and report success
immediately after the click, without re-reading any page indicator. -/
def comp_navigate_to_next_page (cands : List CompNextCandidate)
    (clickEffect : PageState → PageState) (p : PageState) : Bool × PageState :=
  match cands.find? (fun c => c.displayed && c.enabled && !(strContains c.classAttr "disabled")) with
  | some _ => (true, clickEffect p)
  | none => (false, p)

/- ------------------------------------------------------------------ -/
/- PDF link discovery                                                  -/
/- (find_pdf_links_in_table / find_pdf_links_in_dialog)                -/
/- ------------------------------------------------------------------ -/

/-- An anchor element: its href attribute (empty string when the
attribute is missing, matching Python falsiness) and its visible text. -/
structure Anchor where
  href : String
  text : String
deriving DecidableEq

/-- A button element as the row scan sees it: its onclick attribute
(empty string when missing). -/
structure RowButton where
  onclick : String
deriving DecidableEq

/-- A table row as find_pdf_links_in_table sees it. -/
structure TableRow where
  links : List Anchor
  buttons : List RowButton
deriving DecidableEq

/-- The href indicator substrings of the link scans (source line 1104). -/
def pdf_ext_indicators : List String := [".pdf", "pdf", "download"]

/-- The link-text keywords of the row scan (source line 1108). -/
def row_text_keywords : List String := ["pdf", "descargar", "download", "ver"]

/-- The link/button-text keywords of the dialog scan (source lines
1142 and 1159). -/
def dialog_text_keywords : List String := ["pdf", "descargar", "download", "ver", "documento"]

/-- The URLs one anchor contributes in find_pdf_links_in_table (source
lines 1100-1109): the href is appended when the lowercased href contains
an indicator substring, and appended a second time, by an independent
if, when the lowercased link text contains a keyword. -/
def rowLinkContrib (a : Anchor) : List String :=
  if a.href ≠ "" then
    (if pdf_ext_indicators.any (fun e => strContains (strToLower a.href) e) then [a.href] else []) ++
    (if row_text_keywords.any (fun k => strContains (strToLower a.text) k) then [a.href] else [])
  else []

/-- The URLs one button contributes in find_pdf_links_in_table (source
lines 1112-1119).  reSearchPdf is the external regex engine applied to
the onclick payload: the first quoted substring containing .pdf that
re.search would capture, or none. -/
def rowButtonContrib (reSearchPdf : String → Option String) (b : RowButton) : List String :=
  if strContains (strToLower b.onclick) "pdf" || strContains (strToLower b.onclick) "download" then
    match reSearchPdf b.onclick with
    | some u => [u]
    | none => []
  else []

/-- ImprovedPaginationEcuadorScraper.find_pdf_links_in_table (source
lines 1094-1124): collect the contributions of all anchors, then of all
buttons, and return them as-is — no deduplication is applied. -/
def find_pdf_links_in_table (reSearchPdf : String → Option String) (row : TableRow) : List String :=
  (row.links.map rowLinkContrib).flatten ++ (row.buttons.map (rowButtonContrib reSearchPdf)).flatten

/-- A button element as the dialog scan sees it: onclick attribute,
stripped lowercase-able text, and the hrefs of its parent element's
anchors. -/
structure DialogButton where
  onclick : String
  text : String
  parentLinkHrefs : List String
deriving DecidableEq

/-- A clickable element of the dialog scan (source lines 1173-1186):
href and onclick attributes, empty string when missing. -/
structure Clickable where
  href : String
  onclick : String
deriving DecidableEq

/-- A modal dialog as find_pdf_links_in_dialog sees it. -/
structure Dialog where
  links : List Anchor
  buttons : List DialogButton
  clickables : List Clickable
deriving DecidableEq

/-- The URLs one anchor contributes in find_pdf_links_in_dialog (source
lines 1131-1144): unlike the row scan, the text-keyword test is an elif,
so each anchor contributes its href at most once. -/
def dialogLinkContrib (a : Anchor) : List String :=
  if a.href ≠ "" then
    if pdf_ext_indicators.any (fun e => strContains (strToLower a.href) e) then [a.href]
    else if dialog_text_keywords.any (fun k => strContains (strToLower (strTrim a.text)) k) then [a.href]
    else []
  else []

/-- The URLs one button contributes in find_pdf_links_in_dialog (source
lines 1147-1171): onclick extraction first, else the first non-empty
href among the parent element's anchors. -/
def dialogButtonContrib (reSearchPdf : String → Option String) (b : DialogButton) : List String :=
  if strContains (strToLower b.onclick) "pdf" || strContains (strToLower b.onclick) "download" then
    match reSearchPdf b.onclick with
    | some u => [u]
    | none => []
  else if dialog_text_keywords.any (fun k => strContains (strToLower (strTrim b.text)) k) then
    match b.parentLinkHrefs.find? (fun h => h ≠ "") with
    | some h => [h]
    | none => []
  else []

/-- The URLs one clickable contributes in find_pdf_links_in_dialog
(source lines 1174-1186). -/
def dialogClickableContrib (reSearchPdf : String → Option String) (c : Clickable) : List String :=
  if c.href ≠ "" && pdf_ext_indicators.any (fun e => strContains (strToLower c.href) e) then [c.href]
  else if c.onclick ≠ "" && (strContains (strToLower c.onclick) "pdf" || strContains (strToLower c.onclick) "download") then
    match reSearchPdf c.onclick with
    | some u => [u]
    | none => []
  else []

/-- ImprovedPaginationEcuadorScraper.find_pdf_links_in_dialog (source
lines 1126-1191): collect from anchors, buttons and clickables, then
return list(set(pdf_links)) — the final set conversion removes
duplicates (modelled by List.dedup; the set's iteration order is not
specified by the source either). -/
def find_pdf_links_in_dialog (reSearchPdf : String → Option String) (d : Dialog) : List String :=
  ((d.links.map dialogLinkContrib).flatten ++
   (d.buttons.map (dialogButtonContrib reSearchPdf)).flatten ++
   (d.clickables.map (dialogClickableContrib reSearchPdf)).flatten).dedup

/- ------------------------------------------------------------------ -/
/- PDF acquisition engine (ImprovedPDFDownloader)                      -/
/- ------------------------------------------------------------------ -/

/-- A project dict as the downloader consumes it, with the defaults of
the source's .get calls already applied: id defaults to unknown, title
to Unknown, pdf_links to the empty list and document_url to the empty
string. -/
structure Project where
  id : String
  title : String
  pdf_links : List String
  document_url : String
deriving DecidableEq

/-- A Python word character as matched by the regex class backslash-w
(ASCII view): alphanumeric or underscore. -/
def isWordChar (c : Char) : Bool := c.isAlphanum || c = '_'

/-- Characters kept by the first sanitising substitution (delete
everything that is not a word character, whitespace or a hyphen). -/
def keepTitleChar (c : Char) : Bool := isWordChar c || c.isWhitespace || c = '-'

/-- The second sanitising substitution: collapse every run of hyphens
and whitespace into a single hyphen.  The Bool argument records whether
the previous character belonged to such a run. -/
def collapseRuns : Bool → List Char → List Char
  | _, [] => []
  | inRun, c :: cs =>
    if c = '-' || c.isWhitespace then
      if inRun then collapseRuns true cs
      else '-' :: collapseRuns true cs
    else c :: collapseRuns false cs

/-- The safe_title computation of download_pdf (source lines 141-143):
strip non-word non-space non-hyphen characters, trim surrounding
whitespace, collapse hyphen/whitespace runs to single hyphens, and
truncate to 50 characters. -/
def deriveSafeTitle (title : String) : String :=
  String.mk ((collapseRuns false (strTrim (String.mk (title.toList.filter keepTitleChar))).toList).take 50)

/-- The remainder of a URL after the first scheme separator (the colon
followed by two slashes), when one is present. -/
def findSchemeRest : List Char → Option (List Char)
  | [] => none
  | c :: cs =>
    if c = ':' && ['/', '/'].isPrefixOf cs then some (cs.drop 2)
    else findSchemeRest cs

/-- The path component of urlparse: drop the fragment, drop the scheme
and network location when a scheme separator is present, and drop the
query. -/
def urlPath (url : String) : String :=
  let noFrag := url.toList.takeWhile (fun c => c ≠ '#')
  let base :=
    match findSchemeRest noFrag with
    | some rest => rest.dropWhile (fun c => c ≠ '/')
    | none => noFrag
  String.mk (base.takeWhile (fun c => c ≠ '?'))

/-- os.path.basename: the substring after the last slash. -/
def pathBasename (p : String) : String :=
  String.mk (p.toList.foldl (fun acc c => if c = '/' then [] else acc ++ [c]) [])

/-- The filename derivation of download_pdf (source lines 138-152): use
the URL's basename when it is non-empty and contains a dot, otherwise
the sanitised title with a .pdf suffix, in both cases prefixed by the
record's id. -/
def deriveFilename (proj : Project) (pdf_url : String) : String :=
  let url_filename := pathBasename (urlPath pdf_url)
  if url_filename ≠ "" && url_filename.toList.any (fun c => c = '.') then
    proj.id ++ "_" ++ url_filename
  else
    proj.id ++ "_" ++ deriveSafeTitle proj.title ++ ".pdf"

/-- A network request the downloader can issue: the HEAD probe, the
1024-byte streaming probe read of test_pdf_access, and the full
streaming body download of download_pdf. -/
inductive Req where
  | headReq : String → Req
  | probeGet : String → Req
  | fullGet : String → Req
deriving DecidableEq

/-- The observable part of a HEAD response: status code and the
content-type header (as sent; the source lowercases it itself). -/
structure HeadResp where
  status : Nat
  contentType : String
deriving DecidableEq

/-- Oracle for the authenticated HTTP session: the HEAD response, the
first bytes read by the streaming probe, and the full GET response
(content-type header and body bytes).  none models a raised request
exception (including raise_for_status). -/
structure HttpSession where
  headResp : String → Option HeadResp
  probeBytes : String → Option (List Nat)
  getResp : String → Option (String × List Nat)

/-- The four magic bytes of a PDF header, %PDF. -/
def pdfMagic : List Nat := [37, 80, 68, 70]

/-- content.startswith(b'%PDF'). -/
def startsWithPdf (bs : List Nat) : Bool := pdfMagic.isPrefixOf bs

/-- ImprovedPDFDownloader.test_pdf_access (source lines 90-133): HEAD
the URL; on status 200 and a content type containing pdf or a URL ending
in .pdf, stream the first bytes and report whether they start with the
PDF magic; otherwise, or on any exception, report inaccessible.  Also
returns the network requests issued. -/
def test_pdf_access (s : HttpSession) (pdf_url : String) : Bool × List Req :=
  match s.headResp pdf_url with
  | none => (false, [Req.headReq pdf_url])
  | some h =>
    if h.status = 200 then
      if strContains (strToLower h.contentType) "pdf" || strEndsWith (strToLower pdf_url) ".pdf" then
        match s.probeBytes pdf_url with
        | none => (false, [Req.headReq pdf_url, Req.probeGet pdf_url])
        | some content => (startsWithPdf content, [Req.headReq pdf_url, Req.probeGet pdf_url])
      else (false, [Req.headReq pdf_url])
    else (false, [Req.headReq pdf_url])

/-- The download directory contents: filename to byte content.  Writes
replace any previous entry; deletes remove it. -/
def FS : Type := List (String × List Nat)

instance : DecidableEq FS := inferInstanceAs (DecidableEq (List (String × List Nat)))

/-- Read a file. -/
def fsLookup (fs : FS) (p : String) : Option (List Nat) := fs.lookup p

/-- filepath.unlink(). -/
def fsErase (fs : FS) (p : String) : FS := fs.filter (fun e => !(e.1 == p))

/-- open(filepath, wb) followed by writing the whole body. -/
def fsSet (fs : FS) (p : String) (b : List Nat) : FS := (p, b) :: fsErase fs p

/-- filepath.exists() and filepath.stat().st_size > 0. -/
def existsNonEmpty (fs : FS) (p : String) : Bool :=
  match fsLookup fs p with
  | some b => !b.isEmpty
  | none => false

/-- ImprovedPDFDownloader.download_pdf (source lines 135-215): derive
the target filename; short-circuit success when a non-empty file already
exists; probe accessibility and fail without the body download when the
probe fails; issue the full streaming GET, re-check the content type,
write the body; delete the file and fail when it is empty; check the
%PDF header — a mismatch is only logged, the file is retained and the
path still returned.  Returns the result, the final directory contents
and the network requests issued. -/
def download_pdf (s : HttpSession) (fs : FS) (pdf_dir : String) (pdf_url : String)
    (proj : Project) : Option String × FS × List Req :=
  let filepath := pdf_dir ++ "/" ++ deriveFilename proj pdf_url
  if existsNonEmpty fs filepath then (some filepath, fs, [])
  else
    match test_pdf_access s pdf_url with
    | (false, reqs1) => (none, fs, reqs1)
    | (true, reqs1) =>
      match s.getResp pdf_url with
      | none => (none, fs, reqs1 ++ [Req.fullGet pdf_url])
      | some (ctype, body) =>
        if !(strContains (strToLower ctype) "pdf") && !(strEndsWith (strToLower pdf_url) ".pdf") then
          (none, fs, reqs1 ++ [Req.fullGet pdf_url])
        else
          let fs1 := fsSet fs filepath body
          if body.length = 0 then (none, fsErase fs1 filepath, reqs1 ++ [Req.fullGet pdf_url])
          else (some filepath, fs1, reqs1 ++ [Req.fullGet pdf_url])

/-- The counters of ImprovedPDFDownloader.stats. -/
structure DownloadStats where
  downloaded : Nat
  failed : Nat
  skipped : Nat
  total : Nat
deriving DecidableEq

/-- The candidate URL list the download_pdfs_from_data loop body builds
for one project (source lines 235-239): document_url is prepended to
pdf_links when non-empty.  The per-project body then works as follows
(source lines 228-265): with no candidate links the project is counted
as skipped; otherwise it is counted as downloaded when some non-empty
candidate URL downloads successfully and as failed otherwise.  In
processProject below, dl abstracts the outcome of download_pdf for a
candidate URL, and raises models an exception escaping the body, which
in the source occurs before any counter is updated and is counted as
failed by the except branch. -/
def candidateLinks (p : Project) : List String :=
  if p.document_url ≠ "" then p.document_url :: p.pdf_links else p.pdf_links

/-- The per-project counter update of the download_pdfs_from_data loop;
see candidateLinks for the document_url prepend of source line 239. -/
def processProject (dl : String → Project → Bool) (raises : Bool)
    (st : DownloadStats) (p : Project) : DownloadStats :=
  if raises then ⟨st.downloaded, st.failed + 1, st.skipped, st.total⟩
  else if (candidateLinks p).isEmpty then ⟨st.downloaded, st.failed, st.skipped + 1, st.total⟩
  else if (candidateLinks p).any (fun u => (u != "") && dl u p) then
    ⟨st.downloaded + 1, st.failed, st.skipped, st.total⟩
  else ⟨st.downloaded, st.failed + 1, st.skipped, st.total⟩

/-- ImprovedPDFDownloader.download_pdfs_from_data (source lines
217-270): abort with the untouched zero statistics when the session
setup fails; otherwise set total to the number of projects and process
each project in turn. -/
def download_pdfs_from_data (dl : String → Project → Bool) (raises : Project → Bool)
    (setup_ok : Bool) (projects : List Project) : DownloadStats :=
  if !setup_ok then ⟨0, 0, 0, 0⟩
  else projects.foldl (fun st p => processProject dl (raises p) st p) ⟨0, 0, 0, projects.length⟩

/- ------------------------------------------------------------------ -/
/- Run termination and browser release                                 -/
/- (ImprovedPaginationEcuadorScraper.start_scraping and main)          -/
/- ------------------------------------------------------------------ -/

/-- Outcome of one step of the run: normal return, a raised Exception,
or a raised KeyboardInterrupt.  Python's KeyboardInterrupt does not
inherit from Exception, so except-Exception blocks do not catch it. -/
inductive StepRes where
  | ok : StepRes
  | exc : StepRes
  | intr : StepRes
deriving DecidableEq

/-- One run of start_scraping, described by what each sequential step
does.  For navigate_to_iframe, exc means the step reported failure
(its internal except block turns exceptions into False); for the date
fill and submit steps failure is non-fatal so only an interrupt
matters; scrape_nonempty records whether scrape_all_pages returned any
projects. -/
structure RunScript where
  setup_ok : Bool
  nav_res : StepRes
  fill_res : StepRes
  submit_res : StepRes
  scrape_res : StepRes
  scrape_nonempty : Bool
  pdf_res : StepRes
  process_res : StepRes
deriving DecidableEq

/-- How start_scraping terminates. -/
inductive RunOutcome where
  | retNone : RunOutcome
  | retSome : RunOutcome
  | interrupted : RunOutcome
deriving DecidableEq

/-- ImprovedPaginationEcuadorScraper.start_scraping (source lines
695-770): the sequential steps, each early-return path calling
close_driver, the final path calling close_driver, and the
except-Exception handler calling close_driver — but a KeyboardInterrupt
is not an Exception and propagates with the driver still open.  Returns
the outcome and whether the WebDriver is still open afterwards. -/
def start_scraping (sc : RunScript) : RunOutcome × Bool :=
  if !sc.setup_ok then (RunOutcome.retNone, false)
  else
    match sc.nav_res with
    | StepRes.intr => (RunOutcome.interrupted, true)
    | StepRes.exc => (RunOutcome.retNone, false)
    | StepRes.ok =>
      match sc.fill_res with
      | StepRes.intr => (RunOutcome.interrupted, true)
      | _ =>
        match sc.submit_res with
        | StepRes.intr => (RunOutcome.interrupted, true)
        | _ =>
          match sc.scrape_res with
          | StepRes.intr => (RunOutcome.interrupted, true)
          | _ =>
            if !sc.scrape_nonempty then (RunOutcome.retNone, false)
            else
              match sc.pdf_res with
              | StepRes.intr => (RunOutcome.interrupted, true)
              | StepRes.exc => (RunOutcome.retNone, false)
              | StepRes.ok =>
                match sc.process_res with
                | StepRes.intr => (RunOutcome.interrupted, true)
                | StepRes.exc => (RunOutcome.retNone, false)
                | StepRes.ok => (RunOutcome.retSome, false)

/-- main of improved_pagination_scraper.py (source lines 1193-1251):
start_scraping runs inside try blocks whose KeyboardInterrupt and
Exception handlers only log — neither calls close_driver — so the
WebDriver is still open at process exit exactly when start_scraping
left it open.  Returns that leak flag. -/
def main_leaks_driver (sc : RunScript) : Bool :=
  (start_scraping sc).2

/- ------------------------------------------------------------------ -/
/- Helper lemmas                                                       -/
/- ------------------------------------------------------------------ -/

/-- When a pattern-to-matches function returns no match for any pattern
of a list, scanning the list for a first match yields nothing. -/
theorem findSome_head_none {α β : Type} (f : α → List β) :
    ∀ l : List α, (∀ p ∈ l, f p = []) → l.findSome? (fun pat => (f pat).head?) = none := by
  intro l
  induction l with
  | nil => intro _; simp
  | cons a t ih =>
    intro h
    rw [List.findSome?_cons]
    have ha : f a = [] := h a (by simp)
    simp only [ha, List.head?_nil]
    exact ih (fun p hp => h p (by simp [hp]))

/-- A pair of rows with the same deduplication key, the first one's key
unseen: the first row is kept, the second dropped, and exactly the one
key is added to the seen set. -/
theorem removeDuplicateProjects_pair (s : List String) (p q : RawProject)
    (hk : projectKey q = projectKey p)
    (hp : s.contains (projectKey p) = false) :
    removeDuplicateProjects [p, q] s = ([p], projectKey p :: s) := by
  have hp' : projectKey p ∉ s := by simpa using hp
  simp [removeDuplicateProjects, hp', hk, List.contains_cons]

/-- Each processed project adds exactly one to one of the downloaded,
failed and skipped counters and leaves total unchanged. -/
theorem processProject_sum (dl : String → Project → Bool) (raises : Bool)
    (st : DownloadStats) (p : Project) :
    (processProject dl raises st p).downloaded + (processProject dl raises st p).failed
        + (processProject dl raises st p).skipped
      = st.downloaded + st.failed + st.skipped + 1
    ∧ (processProject dl raises st p).total = st.total := by
  unfold processProject
  split_ifs <;> exact ⟨by simp; omega, rfl⟩

/-- The batch loop preserves total and grows the three counters by the
number of projects processed. -/
theorem downloadStats_foldl (dl : String → Project → Bool) (raises : Project → Bool) :
    ∀ (ps : List Project) (st : DownloadStats),
      ((ps.foldl (fun st p => processProject dl (raises p) st p) st).downloaded
          + (ps.foldl (fun st p => processProject dl (raises p) st p) st).failed
          + (ps.foldl (fun st p => processProject dl (raises p) st p) st).skipped
        = st.downloaded + st.failed + st.skipped + ps.length)
      ∧ (ps.foldl (fun st p => processProject dl (raises p) st p) st).total = st.total := by
  intro ps
  induction ps with
  | nil => intro st; simp
  | cons p t ih =>
    intro st
    rw [List.foldl_cons]
    have h1 := processProject_sum dl (raises p) st p
    have h2 := ih (processProject dl (raises p) st p)
    constructor
    · rw [h2.1, h1.1]
      simp [List.length_cons]
      omega
    · rw [h2.2, h1.2]

/-- Specification of the attempt-and-verify loop: success is only ever
reported together with a re-read indicator value that differs from the
pre-navigation reading (and the stored page is updated to that value);
on failure every given strategy was attempted; and the attempted
strategies are always an in-order prefix of the given ones. -/
theorem tryStrategies_spec (env : NavEnv) (stored preInfo : Nat) :
    ∀ (acts : List NavAction) (p : PageState) (tried : List NavAction),
      ((tryStrategies env stored preInfo acts p tried).success = true →
        readPageNumber (tryStrategies env stored preInfo acts p tried).pageState stored ≠ preInfo
        ∧ (tryStrategies env stored preInfo acts p tried).newCurrentPage
            = readPageNumber (tryStrategies env stored preInfo acts p tried).pageState stored)
      ∧ ((tryStrategies env stored preInfo acts p tried).success = false →
        (tryStrategies env stored preInfo acts p tried).attempts = tried ++ acts)
      ∧ ∃ l rest, (tryStrategies env stored preInfo acts p tried).attempts = tried ++ l
          ∧ l ++ rest = acts := by
  intro acts
  induction acts with
  | nil =>
    intro p tried
    refine ⟨by simp [tryStrategies], by simp [tryStrategies], [], [], by simp [tryStrategies]⟩
  | cons a rest ih =>
    intro p tried
    by_cases hinfo : readPageNumber (env.step a p) stored ≠ preInfo
    · have heq : tryStrategies env stored preInfo (a :: rest) p tried
          = ⟨true, readPageNumber (env.step a p) stored, env.step a p, tried ++ [a]⟩ := by
        simp only [tryStrategies, if_pos hinfo]
      rw [heq]
      exact ⟨fun _ => ⟨hinfo, rfl⟩, fun hfalse => by simp at hfalse, [a], rest, rfl, rfl⟩
    · have heq : tryStrategies env stored preInfo (a :: rest) p tried
          = tryStrategies env stored preInfo rest (env.step a p) (tried ++ [a]) := by
        simp only [tryStrategies, if_neg hinfo]
      obtain ⟨h1, h2, l, r, hl, hr⟩ := ih (env.step a p) (tried ++ [a])
      rw [heq]
      refine ⟨h1, fun hfalse => ?_, a :: l, r, ?_, ?_⟩
      · rw [h2 hfalse, List.append_assoc]
        rfl
      · rw [hl, List.append_assoc]
        rfl
      · simp [hr]

/-- The accessibility probe only ever issues the HEAD request, possibly
followed by the streaming probe read — never the full body download. -/
theorem test_pdf_access_reqs (s : HttpSession) (url : String) (b : Bool) (rs : List Req)
    (h : test_pdf_access s url = (b, rs)) :
    rs = [Req.headReq url] ∨ rs = [Req.headReq url, Req.probeGet url] := by
  unfold test_pdf_access at h
  repeat' split at h
  all_goals first
    | exact Or.inl (congrArg Prod.snd h).symm
    | exact Or.inr (congrArg Prod.snd h).symm

/-- Writing a file and then deleting it leaves exactly the directory
without that file. -/
theorem fsErase_fsSet (fs : FS) (p : String) (b : List Nat) :
    fsErase (fsSet fs p b) p = fsErase fs p := by
  simp [fsErase, fsSet, List.filter_filter]

/-- Reading back a freshly written file yields its content. -/
theorem fsLookup_fsSet (fs : FS) (p : String) (b : List Nat) :
    fsLookup (fsSet fs p b) p = some b := by
  simp [fsLookup, fsSet, List.lookup]

/- ------------------------------------------------------------------ -/
/- Claim theorems                                                      -/
/- ------------------------------------------------------------------ -/

/-- C1 (amended): in the improved pagination scraper, navigate_to_next_page
reports success only after re-reading the current-page indicator and
finding it different from the pre-navigation reading (and then stores
that verified reading as the new current page); the strategies it
attempts are always an in-order prefix of the available ones (next
button, page input, page link, URL parameter, in that order); and it
declares failure only after attempting every available fallback
strategy.  The original claim is refuted for the comprehensive scraper
by c1_comprehensive_unverified_click_counterexample. -/
theorem c1_improved_advance_verified_in_order (env : NavEnv) (stored : Nat) (p0 : PageState) :
    ((navigate_to_next_page env stored p0).success = true →
      readPageNumber (navigate_to_next_page env stored p0).pageState stored
          ≠ readPageNumber p0 stored
      ∧ (navigate_to_next_page env stored p0).newCurrentPage
          = readPageNumber (navigate_to_next_page env stored p0).pageState stored)
    ∧ ((navigate_to_next_page env stored p0).success = false →
      (navigate_to_next_page env stored p0).attempts = availableStrategies env stored)
    ∧ ∃ l rest, (navigate_to_next_page env stored p0).attempts = l
        ∧ l ++ rest = availableStrategies env stored := by
  obtain ⟨h1, h2, l, rest, hl, hr⟩ := tryStrategies_spec env stored (readPageNumber p0 stored)
    (availableStrategies env stored) p0 []
  exact ⟨h1, fun hf => by simpa using h2 hf, l, rest, by simpa using hl, hr⟩

/-- C1 witness: a run where a next button exists and clicking it changes
the indicator from 1 to 2 is reported as a verified success. -/
theorem c1_improved_advance_witness :
    readPageNumber (navigate_to_next_page
        ⟨true, true, false, none, "u", fun _ _ => ⟨some 2⟩⟩ 1 ⟨some 1⟩).pageState 1
      ≠ readPageNumber ⟨some 1⟩ 1
    ∧ (navigate_to_next_page
        ⟨true, true, false, none, "u", fun _ _ => ⟨some 2⟩⟩ 1 ⟨some 1⟩).newCurrentPage
      = readPageNumber (navigate_to_next_page
        ⟨true, true, false, none, "u", fun _ _ => ⟨some 2⟩⟩ 1 ⟨some 1⟩).pageState 1 :=
  (c1_improved_advance_verified_in_order
    ⟨true, true, false, none, "u", fun _ _ => ⟨some 2⟩⟩ 1 ⟨some 1⟩).1 (by decide)

/-- C1 counterexample: the comprehensive scraper's navigate_to_next_page
(also cited by the claim) reports success immediately after clicking a
displayed, enabled next-button candidate even when the click leaves the
current-page indicator unchanged (here the page still shows page 3), so
the pagination controller of that scraper does treat an unverified click
as a successful advance, refuting the claim as stated. -/
theorem c1_comprehensive_unverified_click_counterexample :
    comp_navigate_to_next_page [⟨true, true, "ui-paginator-next"⟩] (fun p => p) ⟨some 3⟩
      = (true, ⟨some 3⟩) := by
  decide

/-- C2: when the rendered page text matches none of the page-count
patterns and none of the total-records patterns, the pagination-info
discovery returns the hard-coded fallback of 2742 total records and 275
total pages, with 10 items per page and current page 1. -/
theorem c2_pagination_fallback (page : PageText)
    (h1 : ∀ pat ∈ page_patterns, page.findPairs pat = [])
    (h2 : ∀ pat ∈ total_patterns, page.findSingles pat = []) :
    get_total_records_and_pages page = ⟨2742, 275, 10, 1⟩ := by
  unfold get_total_records_and_pages
  rw [findSome_head_none page.findPairs page_patterns h1,
    findSome_head_none page.findSingles total_patterns h2]

/-- C2 witness: a page on which every pattern has no match. -/
theorem c2_pagination_fallback_witness :
    get_total_records_and_pages ⟨fun _ => [], fun _ => []⟩ = ⟨2742, 275, 10, 1⟩ :=
  c2_pagination_fallback ⟨fun _ => [], fun _ => []⟩ (fun _ _ => rfl) (fun _ _ => rfl)

/-- With no usable file on disk and a failed accessibility probe, the
download returns failure untouched, with only the probe's requests. -/
theorem download_pdf_probe_fail (s : HttpSession) (fs : FS) (dir url : String) (proj : Project)
    (rs : List Req)
    (hne : existsNonEmpty fs (dir ++ "/" ++ deriveFilename proj url) = false)
    (hta : test_pdf_access s url = (false, rs)) :
    download_pdf s fs dir url proj = (none, fs, rs) := by
  simp only [download_pdf, hne, Bool.false_eq_true, if_false, hta]

/-- With no usable file on disk, a successful probe, a delivered body
and a passing content-type check, the download reaches the
post-download verification: an empty body is written and deleted with a
failure result, any other body is retained and the file path returned. -/
theorem download_pdf_after_body (s : HttpSession) (fs : FS) (dir url : String) (proj : Project)
    (rs : List Req) (ctype : String) (body : List Nat)
    (hne : existsNonEmpty fs (dir ++ "/" ++ deriveFilename proj url) = false)
    (hta : test_pdf_access s url = (true, rs))
    (hg : s.getResp url = some (ctype, body))
    (hct : (strContains (strToLower ctype) "pdf" || strEndsWith (strToLower url) ".pdf") = true) :
    download_pdf s fs dir url proj =
      if body.length = 0 then
        (none, fsErase fs (dir ++ "/" ++ deriveFilename proj url), rs ++ [Req.fullGet url])
      else
        (some (dir ++ "/" ++ deriveFilename proj url),
         fsSet fs (dir ++ "/" ++ deriveFilename proj url) body, rs ++ [Req.fullGet url]) := by
  have hcond : (!(strContains (strToLower ctype) "pdf") && !(strEndsWith (strToLower url) ".pdf")) = false := by
    rw [← Bool.not_or, hct]
    rfl
  simp only [download_pdf, hne, Bool.false_eq_true, if_false, hta, hg, hcond,
    fsErase_fsSet]

/-- Whenever download_pdf reports success, the returned path is the
derived target path, the final directory holds a non-empty file at that
path, and — when a non-empty file was already present — the directory is
unchanged and no request was issued. -/
theorem download_pdf_success_shape (s : HttpSession) (fs : FS) (dir url : String) (proj : Project)
    (p : String) (fs2 : FS) (reqs : List Req)
    (h : download_pdf s fs dir url proj = (some p, fs2, reqs)) :
    p = dir ++ "/" ++ deriveFilename proj url
    ∧ existsNonEmpty fs2 p = true
    ∧ (existsNonEmpty fs (dir ++ "/" ++ deriveFilename proj url) = true → fs2 = fs ∧ reqs = []) := by
  by_cases he : existsNonEmpty fs (dir ++ "/" ++ deriveFilename proj url) = true
  · simp only [download_pdf, if_pos he, Prod.mk.injEq, Option.some.injEq] at h
    obtain ⟨hp, hfs, hr⟩ := h
    subst hp
    subst hfs
    exact ⟨rfl, he, fun _ => ⟨rfl, hr.symm⟩⟩
  · have hne : existsNonEmpty fs (dir ++ "/" ++ deriveFilename proj url) = false := by
      simpa using he
    rcases hta : test_pdf_access s url with ⟨ok, reqs1⟩
    cases ok
    · rw [download_pdf_probe_fail s fs dir url proj reqs1 hne hta] at h
      simp at h
    · cases hg : s.getResp url with
      | none =>
        simp only [download_pdf, hne, Bool.false_eq_true, if_false, hta, hg] at h
        simp at h
      | some ctb =>
        obtain ⟨ctype, body⟩ := ctb
        by_cases hct : (strContains (strToLower ctype) "pdf"
            || strEndsWith (strToLower url) ".pdf") = true
        · rw [download_pdf_after_body s fs dir url proj reqs1 ctype body hne hta hg hct] at h
          by_cases hz : body.length = 0
          · rw [if_pos hz] at h
            simp at h
          · rw [if_neg hz] at h
            simp only [Prod.mk.injEq, Option.some.injEq] at h
            obtain ⟨hp, hfs, _⟩ := h
            subst hp
            subst hfs
            refine ⟨rfl, ?_, fun hco => absurd hco he⟩
            unfold existsNonEmpty
            rw [fsLookup_fsSet]
            cases body with
            | nil => exact absurd rfl hz
            | cons b bs => rfl
        · have hcond : (!(strContains (strToLower ctype) "pdf")
              && !(strEndsWith (strToLower url) ".pdf")) = true := by
            rw [← Bool.not_or]
            simp only [Bool.not_eq_true] at hct
            rw [hct]
            rfl
          simp only [download_pdf, hne, Bool.false_eq_true, if_false, hta, hg, hcond,
            if_true] at h
          simp at h

/-- C3: when a non-empty file already exists at the path derived for the
record and URL, download_pdf returns that path with the directory
untouched and no network request issued; and after any successful
acquisition, a repeated call with the same arguments is a no-op that
returns the same path and issues no request (idempotence). -/
theorem c3_download_idempotent (s : HttpSession) (fs : FS) (dir url : String) (proj : Project)
    (p : String) (fs2 : FS) (reqs : List Req)
    (h : download_pdf s fs dir url proj = (some p, fs2, reqs)) :
    p = dir ++ "/" ++ deriveFilename proj url
    ∧ (existsNonEmpty fs (dir ++ "/" ++ deriveFilename proj url) = true → fs2 = fs ∧ reqs = [])
    ∧ download_pdf s fs2 dir url proj = (some p, fs2, []) := by
  obtain ⟨hp, hex, hold⟩ := download_pdf_success_shape s fs dir url proj p fs2 reqs h
  refine ⟨hp, hold, ?_⟩
  subst hp
  simp only [download_pdf]
  rw [if_pos hex]

/-- C3 witness: a directory already containing a non-empty file at the
derived path for record p1 and URL http://h/a.pdf; the call returns the
existing path, leaves the directory unchanged and issues no request, and
so does a repeated call. -/
theorem c3_download_idempotent_witness :
    download_pdf ⟨fun _ => none, fun _ => none, fun _ => none⟩
        [("d/p1_a.pdf", [37])] "d" "http://h/a.pdf" ⟨"p1", "T", [], ""⟩
      = (some "d/p1_a.pdf", [("d/p1_a.pdf", [37])], [])
    ∧ ("d/p1_a.pdf" = "d" ++ "/" ++ deriveFilename ⟨"p1", "T", [], ""⟩ "http://h/a.pdf"
        ∧ ([("d/p1_a.pdf", [37])] : FS) = [("d/p1_a.pdf", [37])] ∧ ([] : List Req) = []) := by
  refine ⟨by decide, ?_⟩
  have h := c3_download_idempotent ⟨fun _ => none, fun _ => none, fun _ => none⟩
    [("d/p1_a.pdf", [37])] "d" "http://h/a.pdf" ⟨"p1", "T", [], ""⟩
    "d/p1_a.pdf" [("d/p1_a.pdf", [37])] [] (by decide)
  exact ⟨h.1, h.2.1 (by decide)⟩

/-- C4: after the streaming download completes (no usable existing file,
probe passed, body delivered, content-type check passed): a zero-byte
file is deleted and the acquisition returns failure, while a non-empty
file whose first four bytes are not the %PDF magic is retained and the
acquisition still returns the file path as success. -/
theorem c4_post_download_verification (s : HttpSession) (fs : FS) (dir url : String)
    (proj : Project) (rs : List Req) (ctype : String) (body : List Nat)
    (hne : existsNonEmpty fs (dir ++ "/" ++ deriveFilename proj url) = false)
    (hta : test_pdf_access s url = (true, rs))
    (hg : s.getResp url = some (ctype, body))
    (hct : (strContains (strToLower ctype) "pdf" || strEndsWith (strToLower url) ".pdf") = true) :
    (body.length = 0 →
      download_pdf s fs dir url proj
        = (none, fsErase fs (dir ++ "/" ++ deriveFilename proj url), rs ++ [Req.fullGet url]))
    ∧ (body.length ≠ 0 → startsWithPdf body = false →
      download_pdf s fs dir url proj
        = (some (dir ++ "/" ++ deriveFilename proj url),
           fsSet fs (dir ++ "/" ++ deriveFilename proj url) body, rs ++ [Req.fullGet url])) := by
  have hd := download_pdf_after_body s fs dir url proj rs ctype body hne hta hg hct
  constructor
  · intro hz
    rw [hd, if_pos hz]
  · intro hz _
    rw [hd, if_neg hz]

/-- C4 witness: with an accessible URL, an empty delivered body is
deleted and reported as failure, and a non-empty body that does not
start with %PDF is kept on disk and reported as success. -/
theorem c4_post_download_verification_witness :
    download_pdf ⟨fun _ => some ⟨200, "application/pdf"⟩, fun _ => some [37, 80, 68, 70],
        fun _ => some ("application/pdf", [])⟩ [] "d" "http://h/a.pdf" ⟨"p1", "T", [], ""⟩
      = (none, [], [Req.headReq "http://h/a.pdf", Req.probeGet "http://h/a.pdf",
          Req.fullGet "http://h/a.pdf"])
    ∧ download_pdf ⟨fun _ => some ⟨200, "application/pdf"⟩, fun _ => some [37, 80, 68, 70],
        fun _ => some ("application/pdf", [1, 2, 3])⟩ [] "d" "http://h/a.pdf" ⟨"p1", "T", [], ""⟩
      = (some "d/p1_a.pdf", [("d/p1_a.pdf", [1, 2, 3])],
         [Req.headReq "http://h/a.pdf", Req.probeGet "http://h/a.pdf",
          Req.fullGet "http://h/a.pdf"]) := by
  constructor
  · exact (c4_post_download_verification
      ⟨fun _ => some ⟨200, "application/pdf"⟩, fun _ => some [37, 80, 68, 70],
        fun _ => some ("application/pdf", [])⟩ [] "d" "http://h/a.pdf" ⟨"p1", "T", [], ""⟩
      [Req.headReq "http://h/a.pdf", Req.probeGet "http://h/a.pdf"] "application/pdf" []
      (by decide) (by decide) rfl (by decide)).1 rfl
  · exact (c4_post_download_verification
      ⟨fun _ => some ⟨200, "application/pdf"⟩, fun _ => some [37, 80, 68, 70],
        fun _ => some ("application/pdf", [1, 2, 3])⟩ [] "d" "http://h/a.pdf" ⟨"p1", "T", [], ""⟩
      [Req.headReq "http://h/a.pdf", Req.probeGet "http://h/a.pdf"] "application/pdf" [1, 2, 3]
      (by decide) (by decide) rfl (by decide)).2 (by decide) (by decide)

/-- C5 counterexample: the probe reports content type text/html — which
does not indicate PDF — yet because the URL ends in .pdf and the probed
bytes start with %PDF, the engine proceeds, issues the full streaming
body download, and returns success, refuting the claim that such a
content type always yields failure without the full download. -/
theorem c5_text_html_counterexample :
    download_pdf ⟨fun _ => some ⟨200, "text/html"⟩, fun _ => some [37, 80, 68, 70, 1],
        fun _ => some ("text/html", [37, 80, 68, 70, 1])⟩ [] "d" "http://h/x.pdf"
        ⟨"u", "T", [], ""⟩
      = (some "d/u_x.pdf", [("d/u_x.pdf", [37, 80, 68, 70, 1])],
         [Req.headReq "http://h/x.pdf", Req.probeGet "http://h/x.pdf",
          Req.fullGet "http://h/x.pdf"]) := by
  decide

/-- C5 (amended): whenever the accessibility probe reports failure the
engine returns failure with the directory untouched and without ever
issuing the full body download (the probe itself only issues the HEAD
request and possibly the 1024-byte probe read); and the probe does
report failure whenever the HEAD succeeds with a content type that does
not contain pdf, provided the lowercased URL also does not end in .pdf. -/
theorem c5_probe_failure_no_full_download :
    (∀ (s : HttpSession) (fs : FS) (dir url : String) (proj : Project) (rs : List Req),
      existsNonEmpty fs (dir ++ "/" ++ deriveFilename proj url) = false →
      test_pdf_access s url = (false, rs) →
      download_pdf s fs dir url proj = (none, fs, rs) ∧ ∀ u, Req.fullGet u ∉ rs)
    ∧ (∀ (s : HttpSession) (url : String) (hr : HeadResp),
      s.headResp url = some hr → hr.status = 200 →
      strContains (strToLower hr.contentType) "pdf" = false →
      strEndsWith (strToLower url) ".pdf" = false →
      test_pdf_access s url = (false, [Req.headReq url])) := by
  constructor
  · intro s fs dir url proj rs hne hta
    refine ⟨download_pdf_probe_fail s fs dir url proj rs hne hta, ?_⟩
    intro u
    rcases test_pdf_access_reqs s url false rs hta with h | h <;> subst h <;> simp
  · intro s url hr hh hs hct hurl
    unfold test_pdf_access
    rw [hh]
    simp [hs, hct, hurl]

/-- C5 witness: a URL whose HEAD probe reports 404 is declared a failure
without any body download, and a 200 HEAD with content type text/html on
a URL not ending in .pdf makes the probe itself report failure. -/
theorem c5_probe_failure_witness :
    download_pdf ⟨fun _ => some ⟨404, "text/html"⟩, fun _ => none, fun _ => none⟩
        [] "d" "http://h/a" ⟨"p1", "T", [], ""⟩
      = (none, [], [Req.headReq "http://h/a"])
    ∧ test_pdf_access ⟨fun _ => some ⟨200, "text/html"⟩, fun _ => none, fun _ => none⟩
        "http://h/a"
      = (false, [Req.headReq "http://h/a"]) :=
  ⟨(c5_probe_failure_no_full_download.1
      ⟨fun _ => some ⟨404, "text/html"⟩, fun _ => none, fun _ => none⟩
      [] "d" "http://h/a" ⟨"p1", "T", [], ""⟩ [Req.headReq "http://h/a"]
      (by decide) (by decide)).1,
   c5_probe_failure_no_full_download.2
      ⟨fun _ => some ⟨200, "text/html"⟩, fun _ => none, fun _ => none⟩
      "http://h/a" ⟨200, "text/html"⟩ rfl rfl (by decide) (by decide)⟩

/-- C6: two extracted rows with identical title and description within a
run: the first occurrence is kept and its key added to the run-wide seen
set, the second occurrence is dropped and adds nothing, so the seen set
grows by exactly one element across the two extractions. -/
theorem c6_identical_rows_dedup (s : List String) (p q : RawProject)
    (ht : q.title = p.title) (hd : q.description = p.description)
    (hp : s.contains (projectKey p) = false) :
    removeDuplicateProjects [p] s = ([p], projectKey p :: s)
    ∧ removeDuplicateProjects [q] (removeDuplicateProjects [p] s).2
      = ([], projectKey p :: s) := by
  have hk : projectKey q = projectKey p := by simp [projectKey, ht, hd]
  have hp' : projectKey p ∉ s := by simpa using hp
  have h1 : removeDuplicateProjects [p] s = ([p], projectKey p :: s) := by
    simp [removeDuplicateProjects, hp']
  refine ⟨h1, ?_⟩
  rw [h1]
  simp [removeDuplicateProjects, hk, List.contains_cons]

/-- C6 witness: two rows with the same title T and description D; only
the first survives and the seen set gains exactly the single key. -/
theorem c6_identical_rows_dedup_witness :
    removeDuplicateProjects [⟨"r1", "T", "D"⟩] []
      = ([⟨"r1", "T", "D"⟩], ["T_D"])
    ∧ removeDuplicateProjects [⟨"r2", "T", "D"⟩]
        (removeDuplicateProjects [(⟨"r1", "T", "D"⟩ : RawProject)] []).2
      = ([], ["T_D"]) :=
  c6_identical_rows_dedup [] ⟨"r1", "T", "D"⟩ ⟨"r2", "T", "D"⟩ rfl rfl (by decide)

/-- C7 counterexample: a row with a single anchor whose href contains a
PDF indicator and whose link text also contains a PDF keyword makes
find_pdf_links_in_table append the same URL twice — the emitted
pdf_links list contains a duplicate, refuting the no-duplicates claim
for the row/cell link scan. -/
theorem c7_row_scan_duplicate_counterexample :
    find_pdf_links_in_table (fun _ => none) ⟨[⟨"http://h/x.pdf", "Ver PDF"⟩], []⟩
      = ["http://h/x.pdf", "http://h/x.pdf"]
    ∧ ¬ (find_pdf_links_in_table (fun _ => none)
          ⟨[⟨"http://h/x.pdf", "Ver PDF"⟩], []⟩).Nodup := by
  decide

/-- C7 (amended): only the dialog scan dedupes its result — the
list(set()) conversion of find_pdf_links_in_dialog guarantees a
duplicate-free candidate list for every dialog; the row scan
(find_pdf_links_in_table) and the downloader's document_url prepend give
no such guarantee. -/
theorem c7_dialog_links_nodup (reSearchPdf : String → Option String) (d : Dialog) :
    (find_pdf_links_in_dialog reSearchPdf d).Nodup := by
  unfold find_pdf_links_in_dialog
  exact List.nodup_dedup _

/-- C8: the run leaks the browser on a user interrupt — with setup and
navigation fine, a KeyboardInterrupt raised during the page loop
propagates through every except-Exception block (KeyboardInterrupt is
not an Exception), main's KeyboardInterrupt handler only logs, and
close_driver is never called, so the WebDriver is still open at process
exit, contradicting the claim that every termination path routes
through finalization. -/
theorem c8_interrupt_leaks_driver :
    start_scraping ⟨true, StepRes.ok, StepRes.ok, StepRes.ok, StepRes.intr, true,
        StepRes.ok, StepRes.ok⟩
      = (RunOutcome.interrupted, true)
    ∧ main_leaks_driver ⟨true, StepRes.ok, StepRes.ok, StepRes.ok, StepRes.intr, true,
        StepRes.ok, StepRes.ok⟩ = true := by
  decide

/-- C9: the run-wide duplicate key is the plain concatenation of title,
an underscore and description, so two rows whose field pairs differ but
whose concatenations coincide are treated as the same record: the first
is kept, the later one is dropped, and only one key is recorded. -/
theorem c9_key_collision_drops_distinct_row (s : List String) (p q : RawProject)
    (hk : projectKey p = projectKey q)
    (hp : s.contains (projectKey p) = false) :
    removeDuplicateProjects [p, q] s = ([p], projectKey p :: s) :=
  removeDuplicateProjects_pair s p q hk.symm hp

/-- C9 witness: titles a_b / a with descriptions c / b_c differ as pairs
but share the key a_b_c; the second row is dropped. -/
theorem c9_key_collision_witness :
    projectKey ⟨"r1", "a_b", "c"⟩ = projectKey ⟨"r2", "a", "b_c"⟩
    ∧ (⟨"r1", "a_b", "c"⟩ : RawProject) ≠ ⟨"r2", "a", "b_c"⟩
    ∧ removeDuplicateProjects [⟨"r1", "a_b", "c"⟩, ⟨"r2", "a", "b_c"⟩] []
      = ([⟨"r1", "a_b", "c"⟩], ["a_b_c"]) :=
  ⟨by decide, by decide,
   c9_key_collision_drops_distinct_row [] ⟨"r1", "a_b", "c"⟩ ⟨"r2", "a", "b_c"⟩
     (by decide) (by decide)⟩

/-- C10: with a successful session setup, the batch download gives every
project exactly one of downloaded, failed or skipped — exceptions while
processing a project are counted as failed — so on completion
downloaded + failed + skipped equals total, which equals the number of
input projects. -/
theorem c10_batch_counters_partition (dl : String → Project → Bool)
    (raises : Project → Bool) (projects : List Project) :
    (download_pdfs_from_data dl raises true projects).downloaded
      + (download_pdfs_from_data dl raises true projects).failed
      + (download_pdfs_from_data dl raises true projects).skipped = projects.length
    ∧ (download_pdfs_from_data dl raises true projects).total = projects.length := by
  have h := downloadStats_foldl dl raises projects ⟨0, 0, 0, projects.length⟩
  unfold download_pdfs_from_data
  rw [if_neg (by decide)]
  exact ⟨by simpa using h.1, h.2⟩
